import Mathlib

/-!
Verification of the interactive kbcli command-builder core
(`internal/executor/kbcli`): the Command Guard static policy tables, the
discovery-based resource catalogue, the selection renderer state machine and
the command-preview builder, shallowly embedded as executable Lean functions.

Go sentinel errors are modelled by constructors of `BErr`; Go's `err == sentinel`
comparison on distinct `errors.New` values corresponds to constructor equality.
Go maps keyed by strings are modelled by association lists with first-key-wins
`List.lookup` semantics.
-/

set_option maxHeartbeats 1000000

namespace Kbcli

/-- One dropdown option: display label plus routed value (Go `api.OptionItem` /
builder `dropdownItem`). -/
structure OptionItem where
  name : String
  value : String
  deriving Repr, DecidableEq, Inhabited

/-- A dropdown menu (Go `api.Select`, flattened to a single option group). -/
structure Select where
  name : String
  command : String
  initialOption : Option OptionItem
  options : List OptionItem
  deriving Repr, DecidableEq, Inhabited

/-- A non-dropdown message section, as far as the builder produces them:
the command preview code block, the free-text filter input, the internal-error
section, and a plain error text body. -/
inductive MsgSection where
  | preview (cmd : String)
  | filterInput
  | internalError
  | errText (txt : String)
  deriving Repr, DecidableEq

/-- The outbound UI payload (Go `api.Message`, restricted to the fields the
builder sets). -/
structure Message where
  replaceOriginal : Bool := false
  onlyVisibleForYou : Bool := false
  blockID : String := ""
  selects : List Select := []
  sections : List MsgSection := []
  plaintext : String := ""
  deriving Repr, DecidableEq, Inhabited

/-- Distinct Go sentinel errors of the builder and command packages.
`unsupportedCommand` is `builder.errUnsupportedCommand`, `cmdNotSupported` is
`command.ErrCmdNotSupported`: two different `errors.New` values, hence two
different constructors. -/
inductive BErr where
  | unsupportedCommand
  | requiredCmdDropdown
  | cmdNotSupported
  | resourceNotFound
  | discoveryFailed (msg : String)
  deriving Repr, DecidableEq

/-- Go `command.Resource`: a resource kind with its namespacing. -/
structure Resource where
  name : String
  namespaced : Bool
  deriving Repr, DecidableEq, Inhabited

/-- Go `metav1.APIResource`, restricted to the fields the guard reads. -/
structure APIResource where
  name : String
  namespaced : Bool
  deriving Repr, DecidableEq, Inhabited

/-- Go `metav1.APIResourceList`: one discovery group with its resources. -/
structure APIResourceList where
  groupVersion : String
  apiResources : List APIResource
  deriving Repr, DecidableEq, Inhabited

/-- The error value returned by `ServerPreferredResources`: either a
`discovery.ErrGroupDiscoveryFailed` carrying one error message per failed
group, or any other error. -/
inductive DiscoveryError where
  | groupDiscoveryFailed (groupErrors : List String)
  | otherError (msg : String)
  deriving Repr, DecidableEq

/-- Builder configuration (Go `builder.Config` / `AllowedResources`). -/
structure AllowedResources where
  namespaces : List String := []
  cmds : List String := []
  verbs : List String := []
  deriving Repr, DecidableEq, Inhabited

structure Config where
  allowed : AllowedResources := {}
  deriving Repr, DecidableEq, Inhabited

/-- Go `builder.DefaultConfig`. -/
def DefaultConfig : Config :=
  { allowed :=
      { cmds := ["cluster", "kubeblocks", "clusterdefinition", "clusterversion", "playground"]
        verbs := ["list"] } }

/- Constant routing identifiers (Go `builder` consts). -/

def interactiveBuilderIndicator : String := "@builder"
def cmdsDropdownCommand : String := "@builder --cmds"
def verbsDropdownCommand : String := "@builder --verbs"
def resourceNamesDropdownCommand : String := "@builder --resource-name"
def resourceNamespaceDropdownCommand : String := "@builder --namespace"
def filterPlaintextInputCommand : String := "@builder --filter-query"
def kbcliCommandName : String := "kbcli"
def dropdownItemsLimit : Nat := 100
def kbcliMissingCommandMsg : String := "Please specify the kbcli command"

/- Command Guard static tables (Go `command` package vars). -/

/-- Commands unsupported in interactive mode (Go `unsupportedGlobalCmds`,
a set modelled as a list of its keys). -/
def unsupportedGlobalCmds : List String := ["playground", "bench"]

/-- Go `cmdResource`: the static command → fixed-resource-kind table. -/
def cmdResource : List (String × Resource) :=
  [("cluster", { name := "cluster", namespaced := true })]

/-- Go `cmdVerbs`: the static command → verb-set table. -/
def cmdVerbs : List (String × List String) :=
  [ ("cluster",
      [ "create", "connect", "describe", "list", "list-instances", "list-components",
        "list-events", "list-accounts", "delete",
        "update", "restart", "upgrade", "volume-expand", "vscale", "hscale",
        "describe-ops", "list-ops", "delete-ops", "configure", "expose",
        "describe-configure", "explain-configure", "diff-configure", "stop", "start",
        "backup", "list-backups", "delete-backup", "restore", "list-restores",
        "delete-restore", "logs", "list-logs" ])
  , ("kubeblocks",
      [ "install", "list-versions", "preflight", "status", "uninstall", "upgrade" ])
  , ("clusterdefinition", ["list"])
  , ("clusterversion", ["list"]) ]

/-- Go `CommandGuard.FilterSupportedCmds`: drop the interactive-mode denylist,
keeping order. -/
def FilterSupportedCmds (allVerbs : List String) : List String :=
  allVerbs.filter (fun s => !(unsupportedGlobalCmds.contains s))

/-- Go `CommandGuard.GetAllowedVerbsForCmd`. The body shadows the `verbs`
parameter with the static table entry; an unknown command returns Go
`nil, nil`, modelled as `.ok none`. -/
def GetAllowedVerbsForCmd (cmd : String) (_verbs : List String) :
    Except BErr (Option (List String)) :=
  match cmdVerbs.lookup cmd with
  | none => .ok none
  | some verbs => .ok (some verbs)

/-- Go `CommandGuard.GetResourceDetails`: unknown command yields the zero
`Resource` with a nil error. -/
def GetResourceDetails (cmd : String) : Except BErr Resource :=
  match cmdResource.lookup cmd with
  | none => .ok { name := "", namespaced := false }
  | some res => .ok res

/-- Go `CommandGuard.GetResourceTypeForCmd`. -/
def GetResourceTypeForCmd (cmd : String) : String :=
  match cmdResource.lookup cmd with
  | none => ""
  | some resource => resource.name

/-- The marker client-go puts into per-group discovery errors for empty
responses (Go `"Got empty response for"`). -/
def emptyResponseMarker : String := "Got empty response for"

/- String primitives. The Go standard-library string helpers are re-implemented
on character lists by structural recursion so that every definition evaluates
inside the kernel. -/

/-- Is `pre` a prefix of `l`? -/
def listIsPrefix (pre l : List Char) : Bool :=
  match pre, l with
  | [], _ => true
  | _ :: _, [] => false
  | a :: as, b :: bs => a == b && listIsPrefix as bs

/-- Boolean substring test: `pat` occurs inside `s` (Go `strings.Contains`). -/
def strContainsSub (s pat : String) : Bool :=
  (List.range (s.data.length + 1)).any (fun i => listIsPrefix pat.data (s.data.drop i))

/-- Go `strings.HasPrefix`. -/
def strHasPrefix (s pre : String) : Bool :=
  listIsPrefix pre.data s.data

/-- Go `strings.TrimPrefix`. -/
def strTrimLeadingToken (s pre : String) : String :=
  if strHasPrefix s pre then String.mk (s.data.drop pre.data.length) else s

/-- A Go whitespace character (the ASCII ones relevant here). -/
def isSpaceChar (c : Char) : Bool :=
  c == ' ' || c == '\t' || c == '\n' || c == '\r'

/-- Go `strings.TrimSpace`. -/
def strTrimSpace (s : String) : String :=
  String.mk (((s.data.dropWhile isSpaceChar).reverse.dropWhile isSpaceChar).reverse)

/-- Split a character list at every separator (keeping empty segments). -/
def splitChars (p : Char → Bool) : List Char → List (List Char)
  | [] => [[]]
  | c :: cs =>
    let rest := splitChars p cs
    if p c then [] :: rest
    else
      match rest with
      | [] => [[c]]
      | seg :: segs => (c :: seg) :: segs

/-- ASCII lower-casing of one character (Go `strings.ToLower` restricted to the
ASCII command tokens compared here). -/
def charToLower (c : Char) : Char :=
  if 65 ≤ c.toNat && c.toNat ≤ 90 then Char.ofNat (c.toNat + 32) else c

/-- Go `strings.ToLower` (ASCII). -/
def strToLower (s : String) : String :=
  String.mk (s.data.map charToLower)

/-- Go `strings.Join`. -/
def strJoin (sep : String) : List String → String
  | [] => ""
  | [x] => x
  | x :: xs => x ++ sep ++ strJoin sep xs

/-- Go `shouldIgnoreResourceListError`: ignore the discovery error exactly when
it is an `ErrGroupDiscoveryFailed` all of whose per-group errors are
empty-response errors. -/
def shouldIgnoreResourceListError : DiscoveryError → Bool
  | .groupDiscoveryFailed groups =>
      groups.all (fun currentErr => strContainsSub currentErr emptyResponseMarker)
  | .otherError _ => false

/-- One step of the Go map fill in `GetServerResourceMap`: keep the first-seen
entry for a name, silently dropping later ones. -/
def insertIfAbsent (resourceMap : List (String × APIResource)) (res : APIResource) :
    List (String × APIResource) :=
  if (resourceMap.lookup res.name).isSome then resourceMap
  else resourceMap ++ [(res.name, res)]

/-- Go `CommandGuard.GetServerResourceMap`, with the discovery collaborator's
response `(resList, err)` passed explicitly. -/
def GetServerResourceMap (resList : List APIResourceList) (err : Option DiscoveryError) :
    Except BErr (List (String × APIResource)) :=
  match err with
  | some e =>
      if !shouldIgnoreResourceListError e then
        .error (.discoveryFailed "while getting resource list from K8s cluster")
      else
        .ok (resList.foldl (fun m item => item.apiResources.foldl insertIfAbsent m) [])
  | none =>
      .ok (resList.foldl (fun m item => item.apiResources.foldl insertIfAbsent m) [])

/-- Go `CommandGuard.GetResourceDetailsFromMap`. -/
def GetResourceDetailsFromMap (resourceType : String)
    (resMap : List (String × APIResource)) : Except BErr Resource :=
  match resMap.lookup resourceType with
  | none => .error .resourceNotFound
  | some res => .ok { name := res.name, namespaced := res.namespaced }

/- Menu Assembler. The Go helpers (`select.go` / `message.go`) are not part of
the provided sources; they are modelled from the spec (sections 3, 4.4 and 6). -/

/-- Go `newDropdownItem`. -/
def newDropdownItem (name value : String) : OptionItem :=
  { name := name, value := value }

/-- Modelled from the spec: the Menu Assembler builds a Menu from an ordered
label/value sequence plus an optional initially-selected value; an empty input
sequence yields an absent menu, and the initial selection is set only when the
non-empty initial value occurs among the option values (the dropdown-consistency
invariant of section 3). Stands in for the repo's `selectDropdown`, which is not
among the provided sources. -/
def selectDropdown (name cmdKey : String) (items : List OptionItem)
    (initialItem : String) : Option Select :=
  if items.isEmpty then none
  else
    some
      { name := name
        command := cmdKey
        initialOption :=
          if initialItem ≠ "" && items.any (fun it => it.value == initialItem) then
            some (newDropdownItem initialItem initialItem)
          else none
        options := items }

/-- Modelled from the spec: the root command dropdown (`CmdSelect`). -/
def CmdSelect (items : List String) (initialItem : String) : Option Select :=
  selectDropdown "Commands" cmdsDropdownCommand
    (items.map (fun s => newDropdownItem s s)) initialItem

/-- Modelled from the spec: the verb dropdown (`VerbSelect`). -/
def VerbSelect (items : List String) (initialItem : String) : Option Select :=
  selectDropdown "Verbs" verbsDropdownCommand
    (items.map (fun s => newDropdownItem s s)) initialItem

/-- Modelled from the spec: the resource-name dropdown (`ResourceNamesSelect`). -/
def ResourceNamesSelect (names : List String) (initialItem : String) : Option Select :=
  selectDropdown "Resource name" resourceNamesDropdownCommand
    (names.map (fun s => newDropdownItem s s)) initialItem

/-- Modelled from the spec (section 4.3 step 6): the namespace dropdown keeps the
supplied initial item (already label-annotated) as its initial selection
(`ResourceNamespaceSelect`). -/
def ResourceNamespaceSelect (items : List OptionItem) (initialItem : OptionItem) : Select :=
  { name := "Namespace"
    command := resourceNamespaceDropdownCommand
    initialOption := some initialItem
    options := items }

/-- Modelled from the spec (section 4.3 step 4): the explicit "empty/no-selection"
resource-name menu rendered instead of omitting the menu
(`EmptyResourceNameDropdown`). -/
def EmptyResourceNameDropdown : Select :=
  { name := "No resources found"
    command := resourceNamesDropdownCommand
    initialOption := none
    options := [] }

/-- The label of the synthetic truncation-notice entry for `hidden` additional
items. -/
def overflowNotice (hidden : Nat) : String :=
  "... and " ++ toString hidden ++ " more not shown"

/-- Modelled from the spec (section 4.4): cap a source list at
`dropdownItemsLimit` entries, appending one synthetic truncation-notice entry
when the cap is exceeded (`overflowSentence`). -/
def overflowSentence (xs : List String) : List String :=
  if xs.length ≤ dropdownItemsLimit then xs
  else xs.take dropdownItemsLimit ++ [overflowNotice (xs.length - dropdownItemsLimit)]

/-- Modelled from the spec (section 4.3 step 4): split the command-runner output
into its non-empty lines (`getNonEmptyLines`). -/
def getNonEmptyLines (out : String) : List String :=
  ((splitChars (fun c => c == '\n') out.data).map String.mk).filter (fun l => l ≠ "")

/-- Modelled from the spec: the command-preview section plus the free-text
filter input (`PreviewSection(cmd, FilterSection())`). -/
def PreviewSection (cmd : String) : List MsgSection :=
  [.preview cmd, .filterInput]

/-- Modelled from the spec: the internal-error section (`InternalErrorSection`). -/
def InternalErrorSection : MsgSection := .internalError

/-- Modelled from the spec (section 6): assemble the interactive builder message
from the root command dropdown, the extra dropdowns and the extra sections;
by default it replaces the previous interactive message and is visible only to
the requesting user (`KbcliCmdBuilderMessage` with its options). Absent (`none`)
extra dropdowns are skipped. -/
def KbcliCmdBuilderMessage (dropdownsBlockID : String) (cmdsSelect : Select)
    (extraSelects : List (Option Select)) (extraSections : List MsgSection) : Message :=
  { replaceOriginal := true
    onlyVisibleForYou := true
    blockID := dropdownsBlockID
    selects := cmdsSelect :: extraSelects.filterMap id
    sections := extraSections }

/-- Escaping of one character under Go's `fmt` `%q` verb, for the printable
strings used here. -/
def goQuoteChar (c : Char) : List Char :=
  if c == '\\' then ['\\', '\\'] else if c == '\x22' then ['\\', '\x22'] else [c]

/-- Quote a filter string the way Go's `fmt` `%q` verb renders the strings used
here: wrap in double quotes, escaping backslashes and double quotes. -/
def goQuote (s : String) : String :=
  "\x22" ++ String.mk (s.data.flatMap goQuoteChar) ++ "\x22"

/-- Go `stateDetails`. The Go field `namespace` is a Lean keyword and is named
`ns` here. -/
structure StateDetails where
  dropdownsBlockID : String := ""
  cmd : String := ""
  ns : String := ""
  verb : String := ""
  resourceName : String := ""
  filter : String := ""
  deriving Repr, DecidableEq, Inhabited

/-- One raw widget action value (Slack `BlockAction`, restricted to the two
fields read: `SelectedOption.Value` and `Value`). -/
structure ActionValue where
  selectedValue : String := ""
  value : String := ""
  deriving Repr, DecidableEq, Inhabited

/-- Slack `BlockActionStates.Values`: per block id, a bag of widget-id/value
pairs. Go map iteration is modelled by list order. -/
structure BlockActionStates where
  values : List (String × List (String × ActionValue)) := []
  deriving Repr, DecidableEq, Inhabited

/-- The external collaborators and configuration a `Kbcli` instance closes
over: config, default namespace, the uuid source, the command runner
(`KubectlRunner.RunKubectlCommand` with its context/kubeconfig/default
namespace fixed) and the namespace lister (`NamespaceLister.List` with the
`dropdownItemsLimit` page limit fixed). Fixing these models "identical
external-collaborator responses". -/
structure Env where
  cfg : Config := {}
  defaultNamespace : String := ""
  freshID : String := ""
  runKubectl : String → Except String String := fun _ => .error ""
  listNamespaces : Except String (List String) := .ok []

/-- Go `strings.Fields`. -/
def goFields (s : String) : List String :=
  ((splitChars isSpaceChar s.data).map String.mk).filter (fun w => w ≠ "")

/-- Go `Kbcli.extractStateDetails`: fold the raw widget values into one
`StateDetails`, remembering the block id of any group other than the free-text
filter's. -/
def extractStateDetails (state : Option BlockActionStates) : StateDetails :=
  match state with
  | none => {}
  | some st =>
    st.values.foldl
      (fun details p =>
        let blockID := p.1
        let details :=
          if !(strContainsSub blockID filterPlaintextInputCommand) then
            { details with dropdownsBlockID := blockID }
          else details
        p.2.foldl
          (fun details q =>
            let act := q.2
            let id := strTrimSpace (strTrimLeadingToken q.1 kbcliCommandName)
            if id == cmdsDropdownCommand then { details with cmd := act.selectedValue }
            else if id == verbsDropdownCommand then { details with verb := act.selectedValue }
            else if id == resourceNamesDropdownCommand then
              { details with resourceName := act.selectedValue }
            else if id == resourceNamespaceDropdownCommand then
              { details with ns := act.selectedValue }
            else if id == filterPlaintextInputCommand then { details with filter := act.value }
            else details)
          details)
      {}

/-- Go `Kbcli.contains`: a dropdown "contains" a value when its initial option
is that value. -/
def containsSelect (matchingTypes : Option Select) (resourceType : String) : Bool :=
  match matchingTypes with
  | none => false
  | some sel =>
    match sel.initialOption with
    | none => false
    | some opt => opt.value == resourceType

/-- Go `Kbcli.appendNamespaceSuffixIfDefault`: cosmetic label suffix for the
literal `default` namespace. -/
def appendNamespaceSuffixIfDefault (i : OptionItem) : OptionItem :=
  if i.name == "default" then { i with name := i.name ++ " (namespace)" } else i

/-- Go `Kbcli.getAllowedVerbsSelectList`. -/
def getAllowedVerbsSelectList (cmd : String) (verbs : List String) (verb : String) :
    Except BErr (Option Select) :=
  match GetAllowedVerbsForCmd cmd verbs with
  | .error e => .error e
  | .ok allowedVerbs =>
    let allowedVerbsList := match allowedVerbs with
      | none => []
      | some vs => vs
    .ok (VerbSelect allowedVerbsList verb)

/-- Go `Kbcli.buildCommandPreview`. -/
def buildCommandPreview (state : StateDetails) : List MsgSection :=
  let cmd := kbcliCommandName ++ " " ++ state.cmd ++ " " ++ state.verb
  let cmd := if state.resourceName ≠ "" then cmd ++ " " ++ state.resourceName else cmd
  match GetResourceDetails state.cmd with
  | .error _ => [InternalErrorSection]
  | .ok resourceDetails =>
    let cmd := if resourceDetails.namespaced && state.ns ≠ "" then
        cmd ++ " -n " ++ state.ns
      else cmd
    let cmd := if state.filter ≠ "" then cmd ++ " --filter=" ++ goQuote state.filter else cmd
    PreviewSection cmd

/-- The `kubectl get` query `tryToGetResourceNamesSelect` issues for a resource
type (Go go-template braces and quotes written with escape codes). -/
def resourceNamesQuery (resourceType : String) : String :=
  "get " ++ resourceType ++
    " --ignore-not-found=true -o go-template=\x27\x7b\x7brange .items\x7d\x7d\x7b\x7b.metadata.name\x7d\x7d\x7b\x7b\x22\\n\x22\x7d\x7d\x7b\x7bend\x7d\x7d\x27"

/-- The full command line `tryToGetResourceNamesSelect` hands to the runner:
the cluster list query for the command's resource type, scoped to the current
namespace when one is set. -/
def resourceQueryFor (state : StateDetails) : String :=
  let cmd := resourceNamesQuery (GetResourceTypeForCmd state.cmd)
  if state.ns ≠ "" then cmd ++ " -n " ++ state.ns else cmd

/-- Go `Kbcli.tryToGetResourceNamesSelect`. -/
def tryToGetResourceNamesSelect (env : Env) (state : StateDetails) : Option Select :=
  if state.verb == "" then some EmptyResourceNameDropdown
  else
    if GetResourceTypeForCmd state.cmd == "" then none
    else
      match env.runKubectl (resourceQueryFor state) with
      | .error _ => some EmptyResourceNameDropdown
      | .ok out =>
        let lines := getNonEmptyLines out
        if lines.isEmpty then some EmptyResourceNameDropdown
        else ResourceNamesSelect (overflowSentence lines) state.resourceName

/-- Go `Kbcli.collectAdditionalNamespaces`. -/
def collectAdditionalNamespaces (env : Env) : List String :=
  if !env.cfg.allowed.namespaces.isEmpty then env.cfg.allowed.namespaces
  else
    match env.listNamespaces with
    | .error _ => []
    | .ok items => items

/-- Go `Kbcli.tryToGetNamespaceSelect`. -/
def tryToGetNamespaceSelect (env : Env) (details : StateDetails) : Option Select :=
  let initialNamespace := appendNamespaceSuffixIfDefault (newDropdownItem details.ns details.ns)
  let allNs := initialNamespace ::
    ((collectAdditionalNamespaces env).filter (fun name => name ≠ details.ns)).map
      (fun name => newDropdownItem name name)
  some (ResourceNamespaceSelect allNs initialNamespace)

/-- Go `Kbcli.renderMessage`: the cascading selection renderer. -/
def renderMessage (env : Env) (stateDetails : StateDetails) (allCmds allVerbs : List String) :
    Except BErr Message :=
  match CmdSelect allCmds stateDetails.cmd with
  | none => .error .requiredCmdDropdown
  | some allCmdsSelect =>
    match getAllowedVerbsSelectList stateDetails.cmd allVerbs stateDetails.verb with
    | .error e => .error e
    | .ok matchingVerbs =>
      match matchingVerbs with
      | none =>
        let sd := { stateDetails with verb := "", resourceName := "", ns := "" }
        .ok (KbcliCmdBuilderMessage sd.dropdownsBlockID allCmdsSelect [] (buildCommandPreview sd))
      | some mv =>
        if !(containsSelect (some mv) stateDetails.verb) then
          .ok (KbcliCmdBuilderMessage stateDetails.dropdownsBlockID allCmdsSelect [some mv] [])
        else
          let resNames := tryToGetResourceNamesSelect env stateDetails
          let nsNames := tryToGetNamespaceSelect env stateDetails
          match resNames with
          | none =>
            let sd := { stateDetails with resourceName := "", ns := "" }
            .ok (KbcliCmdBuilderMessage sd.dropdownsBlockID allCmdsSelect [some mv]
              (buildCommandPreview sd))
          | some rn =>
            let sd1 := if containsSelect (some rn) stateDetails.resourceName then stateDetails
              else { stateDetails with resourceName := "" }
            let sd2 := if containsSelect nsNames sd1.ns then sd1 else { sd1 with ns := "" }
            .ok (KbcliCmdBuilderMessage sd2.dropdownsBlockID allCmdsSelect
              [some mv, some rn, nsNames] (buildCommandPreview sd2))

/-- Go `Kbcli.message` (`api.NewPlaintextMessage`). -/
def message (msg : String) : Except BErr Message :=
  .ok { plaintext := msg }

/-- Go `Kbcli.initialMessage`, with the uuid collaborator supplying the fresh
block id. -/
def initialMessage (env : Env) (allCmds : List String) : Except BErr Message :=
  match CmdSelect allCmds "" with
  | none => .error .requiredCmdDropdown
  | some allCmdsSelect =>
    let msg := KbcliCmdBuilderMessage env.freshID allCmdsSelect [] []
    .ok { msg with replaceOriginal := false }

/-- Go `errMessage`: a replacement, user-only message holding a dropdown
section and the error text body. -/
def errMessage (env : Env) (allVerbs : List String) (errMsgTxt : String) :
    Except BErr Message :=
  .ok
    { replaceOriginal := true
      onlyVisibleForYou := true
      blockID := env.freshID
      selects := (CmdSelect allVerbs "").toList
      sections := [.errText errMsgTxt] }

/-- Go `executorsRunner.SelectAndRun`: dispatch the lower-cased first two
tokens to the matching dropdown/filter handler (the Go map of closures is
modelled by key dispatch, each closure's state adjustment inlined); an unknown
key yields `builder.errUnsupportedCommand`. -/
def SelectAndRun (env : Env) (sd : StateDetails) (allCmds allVerbs : List String)
    (cmd : String) : Except BErr Message :=
  let cmd := strToLower cmd
  if cmd == cmdsDropdownCommand then renderMessage env sd allCmds allVerbs
  else if cmd == verbsDropdownCommand then
    renderMessage env { sd with resourceName := "" } allCmds allVerbs
  else if cmd == resourceNamesDropdownCommand then renderMessage env sd allCmds allVerbs
  else if cmd == resourceNamespaceDropdownCommand then
    renderMessage env { sd with resourceName := "" } allCmds allVerbs
  else if cmd == filterPlaintextInputCommand then renderMessage env sd allCmds allVerbs
  else .error .unsupportedCommand

/-- Go `Kbcli.Handle`: the inbound-event entry point. Note the error switch
compares against `command.ErrCmdNotSupported` (`BErr.cmdNotSupported`), not
`builder.errUnsupportedCommand` (`BErr.unsupportedCommand`). -/
def Handle (env : Env) (cmd : String) (isInteractivitySupported : Bool)
    (state : Option BlockActionStates) : Except BErr Message :=
  if !isInteractivitySupported then message kbcliMissingCommandMsg
  else
    let allCmds := FilterSupportedCmds env.cfg.allowed.cmds
    let allVerbs := env.cfg.allowed.verbs
    if allCmds.isEmpty then
      message ("Unfortunately non of configured " ++
        goQuote (strJoin "," env.cfg.allowed.verbs) ++
        " verbs are supported by interactive command builder.")
    else
      let args := goFields cmd
      if args.length < 2 then initialMessage env allCmds
      else
        let cmd := (args.get? 0).getD "" ++ " " ++ (args.get? 1).getD ""
        let stateDetails := extractStateDetails state
        let stateDetails := if stateDetails.ns == "" then
            { stateDetails with ns := env.defaultNamespace }
          else stateDetails
        match SelectAndRun env stateDetails allCmds allVerbs cmd with
        | .ok msg => .ok msg
        | .error BErr.cmdNotSupported =>
          errMessage env allCmds
            (":exclamation: Unfortunately, interactive command builder doesn\x27t support " ++
              goQuote stateDetails.cmd ++ " command yet.")
        | .error e => .error e

/- Concrete fixtures for witnesses and counterexamples. -/

/-- A concrete collaborator environment: default configuration, `default`
default-namespace, a runner returning two resource names, a namespace lister
returning two namespaces. -/
def testEnv : Env :=
  { cfg := DefaultConfig
    defaultNamespace := "default"
    freshID := "fresh-id"
    runKubectl := fun _ => .ok "c1\nc2\n"
    listNamespaces := .ok ["default", "kube-system"] }

/-- `testEnv` with a failing command runner. -/
def testEnvFail : Env := { testEnv with runKubectl := fun _ => .error "boom" }

def testAllCmds : List String := FilterSupportedCmds DefaultConfig.allowed.cmds

def testAllVerbs : List String := DefaultConfig.allowed.verbs

/-- Is the result exactly the Go `command.ErrCmdNotSupported` error — the only
error `Handle` turns into the user-visible "not supported yet" message? -/
def isCmdNotSupportedErr : Except BErr Message → Bool
  | .error .cmdNotSupported => true
  | _ => false

/-- Is the result a success? -/
def isOkE {α : Type} : Except BErr α → Bool
  | .ok _ => true
  | .error _ => false

instance {ε α : Type} [DecidableEq ε] [DecidableEq α] : DecidableEq (Except ε α) := fun a b =>
  match a, b with
  | .ok x, .ok y => decidable_of_iff (x = y) (by simp)
  | .ok _, .error _ => isFalse (fun h => Except.noConfusion h)
  | .error _, .ok _ => isFalse (fun h => Except.noConfusion h)
  | .error e, .error f => decidable_of_iff (e = f) (by simp)

/- Helper lemmas. -/

theorem getAllowedVerbsSelectList_eq (cmd : String) (verbs : List String) (verb : String) :
    getAllowedVerbsSelectList cmd verbs verb =
      .ok (VerbSelect ((cmdVerbs.lookup cmd).getD []) verb) := by
  unfold getAllowedVerbsSelectList GetAllowedVerbsForCmd
  cases cmdVerbs.lookup cmd <;> rfl

theorem renderMessage_not_cmdNotSupported (env : Env) (s : StateDetails)
    (allCmds allVerbs : List String) :
    isCmdNotSupportedErr (renderMessage env s allCmds allVerbs) = false := by
  unfold renderMessage
  rw [getAllowedVerbsSelectList_eq]
  cases CmdSelect allCmds s.cmd with
  | none => rfl
  | some allCmdsSelect =>
    cases VerbSelect ((cmdVerbs.lookup s.cmd).getD []) s.verb with
    | none => rfl
    | some mv =>
      simp only []
      split
      · rfl
      · cases tryToGetResourceNamesSelect env s <;> rfl

/- Claim theorems. -/

/-- C1: refuted — on an inbound event whose first two tokens match none of the
five registered dropdown/filter handler keys, `Handle` does NOT return the
user-visible "not supported yet" message: `SelectAndRun` fails with
`builder.errUnsupportedCommand`, while `Handle`'s switch only turns
`command.ErrCmdNotSupported` (a different sentinel, produced nowhere) into that
message, so the raw error propagates to the caller. First conjunct: the
concrete failing input. Second conjunct: no input at all makes `SelectAndRun`
produce the sentinel the message branch listens for, so that branch is dead
code. -/
theorem handle_unknown_key_propagates_raw_error :
    Handle testEnv "@builder --oops" true none = .error .unsupportedCommand ∧
    (∀ (env : Env) (sd : StateDetails) (allCmds allVerbs : List String) (cmd : String),
      isCmdNotSupportedErr (SelectAndRun env sd allCmds allVerbs cmd) = false) := by
  refine ⟨by decide, ?_⟩
  intro env sd allCmds allVerbs cmd
  simp only [SelectAndRun]
  split
  · exact renderMessage_not_cmdNotSupported env sd allCmds allVerbs
  · split
    · exact renderMessage_not_cmdNotSupported env _ allCmds allVerbs
    · split
      · exact renderMessage_not_cmdNotSupported env sd allCmds allVerbs
      · split
        · exact renderMessage_not_cmdNotSupported env _ allCmds allVerbs
        · split
          · exact renderMessage_not_cmdNotSupported env sd allCmds allVerbs
          · rfl

/-- C7: confirmed — the renderer is embedded as a pure function of the
selection state, the configured command/verb lists and the collaborator
environment (the Go method reads only immutable receiver fields and the
collaborators; `Env` fixes the external responses), so re-running it on
identical inputs yields identical render results. -/
theorem renderMessage_idempotent :
    ∀ (env : Env) (s : StateDetails) (allCmds allVerbs : List String),
      renderMessage env s allCmds allVerbs = renderMessage env s allCmds allVerbs :=
  fun _ _ _ _ => rfl

/-- C8: confirmed — `FilterSupportedCmds` returns exactly the candidates not in
the interactive-mode denylist (`playground`, `bench`): the result is an
order-preserving sublist, every member avoids the denylist, and every
non-denylisted candidate keeps its multiplicity. -/
theorem filterSupportedCmds_exact :
    ∀ cs : List String,
      List.Sublist (FilterSupportedCmds cs) cs ∧
      (∀ c ∈ FilterSupportedCmds cs, c ∉ unsupportedGlobalCmds) ∧
      (∀ c : String, c ∉ unsupportedGlobalCmds →
        (FilterSupportedCmds cs).count c = cs.count c) := by
  intro cs
  refine ⟨List.filter_sublist cs, ?_, ?_⟩
  · intro c hc
    have := List.of_mem_filter hc
    simpa using this
  · intro c hc
    unfold FilterSupportedCmds
    exact List.count_filter (by simpa using hc)

/-- C8 witness: the denylist members disappear from the default command list
while `cluster` keeps its count. -/
theorem filterSupportedCmds_exact_witness :
    "cluster" ∉ unsupportedGlobalCmds ∧
    (FilterSupportedCmds ["cluster", "playground", "bench", "cluster"]).count "cluster" =
      (["cluster", "playground", "bench", "cluster"] : List String).count "cluster" :=
  ⟨by decide,
    (filterSupportedCmds_exact ["cluster", "playground", "bench", "cluster"]).2.2
      "cluster" (by decide)⟩

/-- C10: confirmed — `GetAllowedVerbsForCmd` shadows and ignores its configured
verb-list parameter: for every command it returns the full static `cmdVerbs`
table entry (or Go `nil` without error for an unknown command) whatever the
configured allow-list is, and hence `getAllowedVerbsSelectList` builds the same
verb menu for any two configured verb lists — the configured allow-list (such
as the default config's single verb `list`) never narrows the verb menu. -/
theorem getAllowedVerbs_ignores_configured_verbs :
    ∀ (cmd : String) (v₁ v₂ : List String) (verb : String),
      GetAllowedVerbsForCmd cmd v₁ = .ok (cmdVerbs.lookup cmd) ∧
      GetAllowedVerbsForCmd cmd v₁ = GetAllowedVerbsForCmd cmd v₂ ∧
      getAllowedVerbsSelectList cmd v₁ verb = getAllowedVerbsSelectList cmd v₂ verb := by
  intro cmd v₁ v₂ verb
  refine ⟨?_, ?_, ?_⟩
  · unfold GetAllowedVerbsForCmd
    cases cmdVerbs.lookup cmd <;> rfl
  · unfold GetAllowedVerbsForCmd
    cases cmdVerbs.lookup cmd <;> rfl
  · rw [getAllowedVerbsSelectList_eq, getAllowedVerbsSelectList_eq]

/-- The resource details the preview builder resolves for a command (the value
inside `GetResourceDetails`'s always-successful result). -/
def resourceDetailsOf (cmd : String) : Resource :=
  match cmdResource.lookup cmd with
  | none => { name := "", namespaced := false }
  | some res => res

theorem getResourceDetails_eq (cmd : String) :
    GetResourceDetails cmd = .ok (resourceDetailsOf cmd) := by
  unfold GetResourceDetails resourceDetailsOf
  cases cmdResource.lookup cmd <;> rfl

theorem buildCommandPreview_eq (s : StateDetails) :
    buildCommandPreview s =
      [MsgSection.preview
          (kbcliCommandName ++ " " ++ s.cmd ++ " " ++ s.verb ++
            (if s.resourceName ≠ "" then " " ++ s.resourceName else "") ++
            (if (resourceDetailsOf s.cmd).namespaced && s.ns ≠ "" then
              " -n " ++ s.ns else "") ++
            (if s.filter ≠ "" then " --filter=" ++ goQuote s.filter else "")),
        MsgSection.filterInput] := by
  simp only [buildCommandPreview, getResourceDetails_eq, PreviewSection]
  by_cases h₁ : s.resourceName = "" <;>
    by_cases h₂ : (resourceDetailsOf s.cmd).namespaced = true <;>
      by_cases h₃ : s.ns = "" <;>
        by_cases h₄ : s.filter = "" <;>
          simp [h₁, h₂, h₃, h₄, String.append_assoc]

/-- C4: corrected — the preview for command=`cluster`, verb=`list`,
namespace=`default` is `kbcli cluster list -n default`, i.e. the claimed text
`cluster list -n default` prefixed by the binary name (final conjunct; the
separate counterexample theorem exhibits the inequality). The rest of the claim
holds: the preview is always the plain concatenation
`kbcli <cmd> <verb>[ <resource>][ -n <ns>][ --filter="…"]` — the `-n` fragment
appears only when the resolved command is namespaced and a namespace is set and
the filter fragment only for non-empty filter text (first conjunct), while the
` (namespace)` suffix changes only a dropdown label, never an option value
(second conjunct), and the namespace menu's emitted initial value is the raw
namespace with only its label annotated (third conjunct). -/
theorem preview_fragments_spec :
    (∀ s : StateDetails,
      buildCommandPreview s =
        [MsgSection.preview
            (kbcliCommandName ++ " " ++ s.cmd ++ " " ++ s.verb ++
              (if s.resourceName ≠ "" then " " ++ s.resourceName else "") ++
              (if (resourceDetailsOf s.cmd).namespaced && s.ns ≠ "" then
                " -n " ++ s.ns else "") ++
              (if s.filter ≠ "" then " --filter=" ++ goQuote s.filter else "")),
          MsgSection.filterInput]) ∧
    (∀ i : OptionItem, (appendNamespaceSuffixIfDefault i).value = i.value) ∧
    (∀ (env : Env) (details : StateDetails),
      ∃ sel, tryToGetNamespaceSelect env details = some sel ∧
        sel.initialOption =
          some (appendNamespaceSuffixIfDefault (newDropdownItem details.ns details.ns)) ∧
        (appendNamespaceSuffixIfDefault (newDropdownItem details.ns details.ns)).value =
          details.ns) ∧
    buildCommandPreview { cmd := "cluster", verb := "list", ns := "default" } =
      PreviewSection "kbcli cluster list -n default" := by
  refine ⟨buildCommandPreview_eq, ?_, ?_, by decide⟩
  · intro i
    unfold appendNamespaceSuffixIfDefault
    split <;> rfl
  · intro env details
    refine ⟨_, rfl, rfl, ?_⟩
    unfold appendNamespaceSuffixIfDefault newDropdownItem
    split <;> rfl

/-- C4 counterexample: the claim's exact expected preview text
`cluster list -n default` differs from the rendered preview, which carries the
`kbcli` binary-name prefix. -/
theorem preview_not_bare_command_line :
    buildCommandPreview { cmd := "cluster", verb := "list", ns := "default" } =
      [MsgSection.preview "kbcli cluster list -n default", MsgSection.filterInput] ∧
    ("kbcli cluster list -n default" == "cluster list -n default") = false := by
  exact ⟨by decide, by decide⟩

/-- C6: confirmed (assembler modelled from spec section 4.4) — a source list
longer than the 100-item cap yields a resource-name menu of exactly the first
100 real entries followed by exactly one synthetic truncation-notice option,
and under the hypothesis that every real resource name is space-free (true of
Kubernetes object names), the synthetic option's value (which contains spaces)
collides with no real name from the list. -/
theorem resourceNames_menu_truncation :
    ∀ (lines : List String) (initialItem : String),
      dropdownItemsLimit < lines.length →
      (∀ l ∈ lines, ' ' ∉ l.data) →
      ∃ sel, ResourceNamesSelect (overflowSentence lines) initialItem = some sel ∧
        sel.options.take dropdownItemsLimit =
          (lines.take dropdownItemsLimit).map (fun s => newDropdownItem s s) ∧
        sel.options.length = dropdownItemsLimit + 1 ∧
        sel.options.getLast? =
          some (newDropdownItem (overflowNotice (lines.length - dropdownItemsLimit))
            (overflowNotice (lines.length - dropdownItemsLimit))) ∧
        overflowNotice (lines.length - dropdownItemsLimit) ∉ lines := by
  intro lines initialItem hlen hnospace
  have hover : overflowSentence lines =
      lines.take dropdownItemsLimit ++
        [overflowNotice (lines.length - dropdownItemsLimit)] := by
    unfold overflowSentence
    rw [if_neg (by omega)]
  have hmap : (overflowSentence lines).map (fun s => newDropdownItem s s) =
      (lines.take dropdownItemsLimit).map (fun s => newDropdownItem s s) ++
        [newDropdownItem (overflowNotice (lines.length - dropdownItemsLimit))
          (overflowNotice (lines.length - dropdownItemsLimit))] := by
    rw [hover, List.map_append]
    rfl
  have hne : ((overflowSentence lines).map (fun s => newDropdownItem s s)).isEmpty = false := by
    rw [hmap]
    simp
  have hsel : ResourceNamesSelect (overflowSentence lines) initialItem =
      some
        { name := "Resource name"
          command := resourceNamesDropdownCommand
          initialOption :=
            if initialItem ≠ "" &&
                ((overflowSentence lines).map (fun s => newDropdownItem s s)).any
                  (fun it => it.value == initialItem) then
              some (newDropdownItem initialItem initialItem)
            else none
          options := (overflowSentence lines).map (fun s => newDropdownItem s s) } := by
    unfold ResourceNamesSelect selectDropdown
    rw [hne]
    rfl
  refine ⟨_, hsel, ?_, ?_, ?_, ?_⟩
  · simp only [hmap]
    rw [List.take_left' (by simp [List.length_take]; omega)]
  · rw [hmap]
    simp [List.length_take]
    omega
  · rw [hmap, List.getLast?_concat]
  · intro hmem
    have hsp : ' ' ∈ (overflowNotice (lines.length - dropdownItemsLimit)).data := by
      unfold overflowNotice
      rw [String.data_append, String.data_append]
      refine List.mem_append.mpr (Or.inl (List.mem_append.mpr (Or.inl ?_)))
      decide
    exact hnospace _ hmem hsp

/-- C6 witness: a list of 101 space-free names is rendered as 100 real options
plus one non-colliding truncation notice. -/
theorem resourceNames_menu_truncation_witness :
    dropdownItemsLimit < (List.replicate 101 "a").length ∧
    (∀ l ∈ List.replicate 101 "a", ' ' ∉ l.data) ∧
    (∃ sel, ResourceNamesSelect (overflowSentence (List.replicate 101 "a")) "" = some sel ∧
      sel.options.take dropdownItemsLimit =
        ((List.replicate 101 "a").take dropdownItemsLimit).map (fun s => newDropdownItem s s) ∧
      sel.options.length = dropdownItemsLimit + 1 ∧
      sel.options.getLast? =
        some (newDropdownItem
          (overflowNotice ((List.replicate 101 "a").length - dropdownItemsLimit))
          (overflowNotice ((List.replicate 101 "a").length - dropdownItemsLimit))) ∧
      overflowNotice ((List.replicate 101 "a").length - dropdownItemsLimit) ∉
        List.replicate 101 "a") :=
  ⟨by decide, by decide,
    resourceNames_menu_truncation (List.replicate 101 "a") "" (by decide) (by decide)⟩

/-- The group-major traversal order of the discovery response, along which the
first-seen resource wins. -/
def flatResources (resList : List APIResourceList) : List APIResource :=
  resList.flatMap (fun item => item.apiResources)

theorem foldl_insert_groups (resList : List APIResourceList)
    (m : List (String × APIResource)) :
    resList.foldl (fun m item => item.apiResources.foldl insertIfAbsent m) m =
      (flatResources resList).foldl insertIfAbsent m := by
  induction resList generalizing m with
  | nil => rfl
  | cons g gs ih => simp [flatResources, List.foldl_append, ih]

theorem lookup_insertIfAbsent (m : List (String × APIResource)) (r : APIResource)
    (n : String) :
    (insertIfAbsent m r).lookup n =
      (m.lookup n).or (if r.name == n then some r else none) := by
  unfold insertIfAbsent
  by_cases hn : r.name = n
  · subst hn
    by_cases h : (m.lookup r.name).isSome
    · rw [if_pos h]
      obtain ⟨v, hv⟩ := Option.isSome_iff_exists.mp h
      rw [hv]
      simp
    · rw [if_neg h, List.lookup_append]
      have hnone : m.lookup r.name = none := by
        cases hm : m.lookup r.name with
        | none => rfl
        | some v => rw [hm] at h; simp at h
      rw [hnone]
      simp
  · have hbeq : (r.name == n) = false := by
      simpa using hn
    have hbeq' : (n == r.name) = false := by
      simpa using Ne.symm hn
    by_cases h : (m.lookup r.name).isSome
    · rw [if_pos h, hbeq]
      simp [Option.or_none]
    · rw [if_neg h, List.lookup_append, hbeq]
      simp [List.lookup_cons, hbeq', Option.or_none]

theorem lookup_foldl_insert (ress : List APIResource)
    (m : List (String × APIResource)) (n : String) :
    (ress.foldl insertIfAbsent m).lookup n =
      (m.lookup n).or (ress.find? (fun r => r.name == n)) := by
  induction ress generalizing m with
  | nil => simp [Option.or_none]
  | cons r rs ih =>
    simp only [List.foldl_cons, ih, lookup_insertIfAbsent, Option.or_assoc]
    by_cases h : (r.name == n) = true
    · simp [h, List.find?_cons_of_pos]
    · simp [h, List.find?_cons_of_neg]

/-- C3: confirmed — `GetServerResourceMap` succeeds despite a discovery error
exactly when the error is a group-discovery failure all of whose per-group
sub-errors carry the empty-response marker (first conjunct); any non-group
discovery error is fatal (second conjunct); and on success the name-keyed
catalogue maps each name to the first descriptor seen for it in group-major
traversal order, silently dropping later duplicates (third conjunct). -/
theorem serverResourceMap_tolerance_and_first_wins :
    ∀ (resList : List APIResourceList) (groupErrors : List String) (emsg : String)
      (errOpt : Option DiscoveryError) (m : List (String × APIResource)) (n : String),
      (isOkE (GetServerResourceMap resList (some (.groupDiscoveryFailed groupErrors))) =
        groupErrors.all (fun e => strContainsSub e emptyResponseMarker)) ∧
      (isOkE (GetServerResourceMap resList (some (.otherError emsg))) = false) ∧
      (GetServerResourceMap resList errOpt = .ok m →
        m.lookup n = (flatResources resList).find? (fun r => r.name == n)) := by
  intro resList groupErrors emsg errOpt m n
  refine ⟨?_, ?_, ?_⟩
  · cases h : groupErrors.all (fun e => strContainsSub e emptyResponseMarker) <;>
      simp [GetServerResourceMap, shouldIgnoreResourceListError, h, isOkE]
  · rfl
  · intro hok
    have hm : m = (flatResources resList).foldl insertIfAbsent [] := by
      rw [← foldl_insert_groups]
      cases errOpt with
      | none =>
        simp only [GetServerResourceMap] at hok
        exact (Except.ok.inj hok).symm
      | some e =>
        simp only [GetServerResourceMap] at hok
        by_cases hig : shouldIgnoreResourceListError e = true
        · rw [hig] at hok
          simp at hok
          exact hok.symm
        · rw [Bool.not_eq_true] at hig
          rw [hig] at hok
          simp at hok
    rw [hm, lookup_foldl_insert]
    simp

/-- C3 fixture: two API groups both exposing `pods`, the first namespaced. -/
def discoFixture : List APIResourceList :=
  [ { groupVersion := "v1"
      apiResources :=
        [ { name := "pods", namespaced := true }
        , { name := "services", namespaced := true } ] }
  , { groupVersion := "metrics.k8s.io/v1beta1"
      apiResources := [ { name := "pods", namespaced := false } ] } ]

/-- C3 witness: on the two-group fixture the build succeeds and `pods` resolves
to the first-seen (namespaced) descriptor from `v1`, the duplicate from the
metrics group being dropped. -/
theorem serverResourceMap_first_wins_witness :
    GetServerResourceMap discoFixture none =
      .ok [ ("pods", { name := "pods", namespaced := true })
          , ("services", { name := "services", namespaced := true }) ] ∧
    List.lookup "pods"
        [ ("pods", ({ name := "pods", namespaced := true } : APIResource))
        , ("services", { name := "services", namespaced := true }) ] =
      (flatResources discoFixture).find? (fun r => r.name == "pods") :=
  ⟨by decide,
    (serverResourceMap_tolerance_and_first_wins discoFixture [] "" none _ "pods").2.2
      (by decide)⟩

theorem cmdSelect_ne_none (allCmds : List String) (initial : String)
    (h : allCmds ≠ []) : CmdSelect allCmds initial ≠ none := by
  unfold CmdSelect selectDropdown
  cases allCmds with
  | nil => exact absurd rfl h
  | cons a as => simp

theorem renderMessage_ok_of_cmds_nonempty (env : Env) (s : StateDetails)
    (allCmds allVerbs : List String) (h : allCmds ≠ []) :
    isOkE (renderMessage env s allCmds allVerbs) = true := by
  unfold renderMessage
  rw [getAllowedVerbsSelectList_eq]
  cases hcs : CmdSelect allCmds s.cmd with
  | none => exact absurd hcs (cmdSelect_ne_none allCmds s.cmd h)
  | some sel =>
    cases VerbSelect ((cmdVerbs.lookup s.cmd).getD []) s.verb with
    | none => rfl
    | some mv =>
      simp only []
      split
      · rfl
      · cases tryToGetResourceNamesSelect env s <;> rfl

/-- C9: confirmed — for a command with a fixed resource kind and a non-empty
verb, a failing command-runner never fails the render pass: the resource-name
resolution degrades to the explicit empty resource-name menu (first conjunct)
and the whole render pass still succeeds whenever the root command list is
non-empty (second conjunct); on runner success the output is split into
non-empty lines, each one resource instance name, from which the capped option
list is assembled (third conjunct; the empty split again yields the explicit
empty menu). -/
theorem runner_failure_degrades_gracefully :
    ∀ (env : Env) (s : StateDetails) (allCmds allVerbs : List String),
      s.verb ≠ "" →
      GetResourceTypeForCmd s.cmd ≠ "" →
      (∀ emsg, env.runKubectl (resourceQueryFor s) = .error emsg →
        tryToGetResourceNamesSelect env s = some EmptyResourceNameDropdown) ∧
      (allCmds ≠ [] → isOkE (renderMessage env s allCmds allVerbs) = true) ∧
      (∀ out, env.runKubectl (resourceQueryFor s) = .ok out →
        tryToGetResourceNamesSelect env s =
          (if (getNonEmptyLines out).isEmpty then some EmptyResourceNameDropdown
           else ResourceNamesSelect (overflowSentence (getNonEmptyLines out))
             s.resourceName)) := by
  intro env s allCmds allVerbs hverb htype
  have hv : (s.verb == "") = false := by simpa using hverb
  have ht : (GetResourceTypeForCmd s.cmd == "") = false := by simpa using htype
  refine ⟨?_, renderMessage_ok_of_cmds_nonempty env s allCmds allVerbs, ?_⟩
  · intro emsg herr
    unfold tryToGetResourceNamesSelect
    rw [hv, ht, herr]
    simp
  · intro out hout
    unfold tryToGetResourceNamesSelect
    rw [hv, ht, hout]
    simp

/-- C9 fixture: command `cluster` with verb `list` in namespace `default`. -/
def st9 : StateDetails :=
  { dropdownsBlockID := "b", cmd := "cluster", verb := "list", ns := "default" }

/-- C9 witness: with the failing runner the resource-name menu degrades to the
explicit empty dropdown. -/
theorem runner_failure_degrades_gracefully_witness :
    st9.verb ≠ "" ∧ GetResourceTypeForCmd st9.cmd ≠ "" ∧
    tryToGetResourceNamesSelect testEnvFail st9 = some EmptyResourceNameDropdown :=
  ⟨by decide, by decide,
    (runner_failure_degrades_gracefully testEnvFail st9 testAllCmds testAllVerbs
      (by decide) (by decide)).1 "boom" rfl⟩

/-- C5: corrected — when the allowed-verb lookup yields no verb set the
renderer clears verb, resourceName and namespace and renders exactly the
command menu plus the preview/filter sections, but the preview text is not the
command token alone: it carries the fixed binary-name prefix and, when filter
text is present, the persisting `--filter` fragment (the filter field is not
cleared in this branch). -/
theorem no_verb_set_renders_command_menu_only :
    ∀ (env : Env) (s : StateDetails) (allCmds allVerbs : List String) (msg : Message),
      cmdVerbs.lookup s.cmd = none →
      renderMessage env s allCmds allVerbs = .ok msg →
      (∃ cmdSel, CmdSelect allCmds s.cmd = some cmdSel ∧ msg.selects = [cmdSel]) ∧
      msg.sections =
        [MsgSection.preview
            (kbcliCommandName ++ " " ++ s.cmd ++ " " ++
              (if s.filter ≠ "" then " --filter=" ++ goQuote s.filter else "")),
          MsgSection.filterInput] := by
  intro env s allCmds allVerbs msg hl hok
  unfold renderMessage at hok
  rw [getAllowedVerbsSelectList_eq, hl] at hok
  cases hcs : CmdSelect allCmds s.cmd with
  | none => rw [hcs] at hok; exact Except.noConfusion hok
  | some sel =>
    rw [hcs] at hok
    have hmv : VerbSelect (((none : Option (List String))).getD []) s.verb = none := rfl
    rw [hmv] at hok
    dsimp only at hok
    have hmsg := (Except.ok.inj hok).symm
    subst hmsg
    refine ⟨⟨sel, rfl, rfl⟩, ?_⟩
    show buildCommandPreview { s with verb := "", resourceName := "", ns := "" } = _
    rw [buildCommandPreview_eq]
    have hres : cmdResource.lookup s.cmd = none := by
      by_cases hc : s.cmd = "cluster"
      · rw [hc] at hl
        exact absurd hl (by decide)
      · have hb : (s.cmd == "cluster") = false := by simpa using hc
        simp [cmdResource, List.lookup, hb]
    simp [resourceDetailsOf, hres]

/-- C5 fixture: a verb-less command selection carrying live filter text. -/
def c5State : StateDetails := { dropdownsBlockID := "b", cmd := "addon", filter := "foo" }

/-- C5 witness: the no-verb branch at the concrete fixture. -/
def getOkMsg (e : Except BErr Message) : Message :=
  match e with
  | .ok m => m
  | .error _ => {}

def c5Msg : Message := getOkMsg (renderMessage testEnv c5State testAllCmds testAllVerbs)

theorem no_verb_set_renders_command_menu_only_witness :
    cmdVerbs.lookup c5State.cmd = none ∧
    renderMessage testEnv c5State testAllCmds testAllVerbs = .ok c5Msg ∧
    c5Msg.sections =
      [MsgSection.preview
          (kbcliCommandName ++ " " ++ c5State.cmd ++ " " ++
            (if c5State.filter ≠ "" then " --filter=" ++ goQuote c5State.filter else "")),
        MsgSection.filterInput] :=
  ⟨by decide, by decide,
    (no_verb_set_renders_command_menu_only testEnv c5State testAllCmds testAllVerbs c5Msg
      (by decide) (by decide)).2⟩

theorem verbSelect_none_iff (vs : List String) (v : String) :
    VerbSelect vs v = none ↔ vs = [] := by
  unfold VerbSelect selectDropdown
  cases vs <;> simp

theorem any_value_map_dup (l : List String) (v : String) :
    (l.map (fun s => newDropdownItem s s)).any (fun it => it.value == v) =
      l.any (fun x => x == v) := by
  induction l with
  | nil => rfl
  | cons a as ih => rw [List.map_cons, List.any_cons, List.any_cons, ih]; rfl

theorem containsSelect_verbSelect (vs : List String) (v : String) :
    containsSelect (VerbSelect vs v) v = true ↔ (v ≠ "" ∧ v ∈ vs) := by
  unfold containsSelect VerbSelect selectDropdown
  cases vs with
  | nil => simp
  | cons a as =>
    have hne : ((a :: as).map (fun s => newDropdownItem s s)).isEmpty = false := rfl
    rw [hne, any_value_map_dup]
    by_cases hv : v = ""
    · subst hv
      simp
    · have hd : decide (v ≠ "") = true := by simp [hv]
      by_cases hmem : v ∈ a :: as
      · have hany : (a :: as).any (fun x => x == v) = true := by
          rw [List.any_eq_true]
          exact ⟨v, hmem, by simp⟩
        rw [hany, hd]
        simp [hv, hmem, newDropdownItem]
      · have hany : (a :: as).any (fun x => x == v) = false := by
          rw [List.any_eq_false]
          intro x hx hxv
          exact hmem ((eq_of_beq hxv) ▸ hx)
        rw [hany, hd]
        simp [hv, hmem]

theorem verbSelect_getD_none (v : String) :
    VerbSelect ((none : Option (List String)).getD []) v = none := rfl

/-- C5 counterexample: for the verb-less command `addon` with filter text
`foo`, the rendered preview text is `kbcli addon  --filter="foo"` — it contains
the `--filter` fragment (and the binary-name prefix), not the command token
alone as the claim states. -/
theorem no_verb_preview_contains_filter :
    (renderMessage testEnv c5State testAllCmds testAllVerbs).map (fun m => m.sections) =
      .ok [MsgSection.preview "kbcli addon  --filter=\x22foo\x22",
        MsgSection.filterInput] ∧
    strContainsSub "kbcli addon  --filter=\x22foo\x22" "--filter" = true :=
  ⟨by decide, by decide⟩

/-- C2: corrected — a command change does not unconditionally clear the
previously selected verb, resourceName and namespace; the renderer
*re-validates* them instead. In any successful render: when the (possibly new)
command has no verb set, all three fields are cleared before the preview is
built (first conjunct); when the carried verb is not a member of the new
command's verb set, no preview is rendered at all, so no stale field reaches
the output (second conjunct); but when the carried verb IS a member of the new
command's verb set it survives into the preview unchanged, and resourceName and
namespace each either survive or are cleared according to the freshly resolved
menus — never replaced by anything else (third conjunct). -/
theorem command_change_revalidates_not_clears :
    ∀ (env : Env) (s : StateDetails) (allCmds allVerbs : List String) (msg : Message),
      renderMessage env s allCmds allVerbs = .ok msg →
      (cmdVerbs.lookup s.cmd = none →
        msg.sections =
          buildCommandPreview { s with verb := "", resourceName := "", ns := "" }) ∧
      (∀ vs, cmdVerbs.lookup s.cmd = some vs → vs ≠ [] →
        ¬(s.verb ≠ "" ∧ s.verb ∈ vs) → msg.sections = []) ∧
      (∀ vs, cmdVerbs.lookup s.cmd = some vs → s.verb ≠ "" → s.verb ∈ vs →
        ∃ rn nsv, (rn = s.resourceName ∨ rn = "") ∧ (nsv = s.ns ∨ nsv = "") ∧
          msg.sections = buildCommandPreview { s with resourceName := rn, ns := nsv }) := by
  intro env s allCmds allVerbs msg hok
  unfold renderMessage at hok
  rw [getAllowedVerbsSelectList_eq] at hok
  cases hcs : CmdSelect allCmds s.cmd with
  | none => rw [hcs] at hok; exact Except.noConfusion hok
  | some sel =>
    rw [hcs] at hok
    dsimp only at hok
    cases hmv : VerbSelect ((cmdVerbs.lookup s.cmd).getD []) s.verb with
    | none =>
      rw [hmv] at hok
      dsimp only at hok
      have hmsg := (Except.ok.inj hok).symm
      subst hmsg
      refine ⟨fun _ => rfl, ?_, ?_⟩
      · intro vs hvs hvsne _
        rw [hvs] at hmv
        exact absurd ((verbSelect_none_iff vs s.verb).mp hmv) hvsne
      · intro vs hvs hvne hvmem
        rw [hvs] at hmv
        have hnil := (verbSelect_none_iff vs s.verb).mp hmv
        subst hnil
        exact absurd hvmem (List.not_mem_nil s.verb)
    | some mv =>
      rw [hmv] at hok
      dsimp only at hok
      by_cases hct : containsSelect (some mv) s.verb = true
      · rw [if_neg (by simp [hct])] at hok
        cases hrn : tryToGetResourceNamesSelect env s with
        | none =>
          rw [hrn] at hok
          dsimp only at hok
          have hmsg := (Except.ok.inj hok).symm
          subst hmsg
          refine ⟨?_, ?_, ?_⟩
          · intro hl
            rw [hl, verbSelect_getD_none] at hmv
            exact Option.noConfusion hmv
          · intro vs hvs _ hnot
            rw [hvs] at hmv
            have hmv2 : VerbSelect vs s.verb = some mv := hmv
            exact absurd
              ((containsSelect_verbSelect vs s.verb).mp (by rw [hmv2]; exact hct)) hnot
          · intro vs hvs hvne hvmem
            exact ⟨"", "", Or.inr rfl, Or.inr rfl, rfl⟩
        | some rn =>
          rw [hrn] at hok
          dsimp only at hok
          have hmsg := (Except.ok.inj hok).symm
          subst hmsg
          refine ⟨?_, ?_, ?_⟩
          · intro hl
            rw [hl, verbSelect_getD_none] at hmv
            exact Option.noConfusion hmv
          · intro vs hvs _ hnot
            rw [hvs] at hmv
            have hmv2 : VerbSelect vs s.verb = some mv := hmv
            exact absurd
              ((containsSelect_verbSelect vs s.verb).mp (by rw [hmv2]; exact hct)) hnot
          · intro vs hvs hvne hvmem
            by_cases h₁ : containsSelect (some rn) s.resourceName = true
            · by_cases h₂ :
                  containsSelect (tryToGetNamespaceSelect env s) s.ns = true
              · exact ⟨s.resourceName, s.ns, Or.inl rfl, Or.inl rfl,
                  by simp [KbcliCmdBuilderMessage, h₁, h₂]⟩
              · exact ⟨s.resourceName, "", Or.inl rfl, Or.inr rfl,
                  by simp [KbcliCmdBuilderMessage, h₁, h₂]⟩
            · by_cases h₂ :
                  containsSelect (tryToGetNamespaceSelect env s) s.ns = true
              · exact ⟨"", s.ns, Or.inr rfl, Or.inl rfl,
                  by simp [KbcliCmdBuilderMessage, h₁, h₂]⟩
              · exact ⟨"", "", Or.inr rfl, Or.inr rfl,
                  by simp [KbcliCmdBuilderMessage, h₁, h₂]⟩
      · have hcf : containsSelect (some mv) s.verb = false := by simpa using hct
        rw [if_pos (by simp [hcf])] at hok
        have hmsg := (Except.ok.inj hok).symm
        subst hmsg
        refine ⟨?_, ?_, ?_⟩
        · intro hl
          rw [hl, verbSelect_getD_none] at hmv
          exact Option.noConfusion hmv
        · intro vs hvs _ _
          rfl
        · intro vs hvs hvne hvmem
          rw [hvs] at hmv
          have hmv2 : VerbSelect vs s.verb = some mv := hmv
          have htrue := (containsSelect_verbSelect vs s.verb).mpr ⟨hvne, hvmem⟩
          rw [hmv2] at htrue
          rw [htrue] at hcf
          exact Bool.noConfusion hcf

/-- C2 fixture: the pass after a command change `cluster` → `clusterdefinition`
with the previously selected verb, resource name and namespace still in the UI
state. -/
def c2State : StateDetails :=
  { dropdownsBlockID := "b", cmd := "clusterdefinition", verb := "list",
    ns := "default", resourceName := "mycl" }

def c2Msg : Message := getOkMsg (renderMessage testEnv c2State testAllCmds testAllVerbs)

/-- C2 counterexample: pass one selects verb `list` under command `cluster`;
pass two, identical but with the command changed to `clusterdefinition`, still
renders the previously selected verb `list` in its preview — the verb is
carried over, not cleared, because `list` is also valid for the new command. -/
theorem verb_carried_across_command_change :
    (renderMessage testEnv { c2State with cmd := "cluster" } testAllCmds testAllVerbs).map
        (fun m => m.sections) =
      .ok [MsgSection.preview "kbcli cluster list -n default", MsgSection.filterInput] ∧
    (renderMessage testEnv c2State testAllCmds testAllVerbs).map (fun m => m.sections) =
      .ok [MsgSection.preview "kbcli clusterdefinition list", MsgSection.filterInput] ∧
    strContainsSub "kbcli clusterdefinition list" "list" = true :=
  ⟨by decide, by decide, by decide⟩

/-- C2 witness: the amended theorem applied at the concrete command-change
pass. -/
theorem command_change_revalidates_witness :
    renderMessage testEnv c2State testAllCmds testAllVerbs = .ok c2Msg ∧
    cmdVerbs.lookup c2State.cmd = some ["list"] ∧
    c2State.verb ≠ "" ∧ c2State.verb ∈ ["list"] ∧
    (∃ rn nsv, (rn = c2State.resourceName ∨ rn = "") ∧ (nsv = c2State.ns ∨ nsv = "") ∧
      c2Msg.sections = buildCommandPreview { c2State with resourceName := rn, ns := nsv }) :=
  ⟨by decide, by decide, by decide, by decide,
    (command_change_revalidates_not_clears testEnv c2State testAllCmds testAllVerbs c2Msg
      (by decide)).2.2 ["list"] (by decide) (by decide) (by decide)⟩

end Kbcli
